import Mathlib

/-
Verification of the collision-dispatch and timed-action core of the Mario
repository (src/app.py).  The handlers of `MarioApp` are embedded as pure
Lean functions over an explicit application state.  External collaborators
that live outside src/ (player.py, game/world.py, game/util.py, the Tk
event loop) are modelled from the spec at their interface, as noted on the
corresponding definitions.
-/

namespace Mario

/-- BLOCK_SIZE = 2 ** 4 (src/app.py). -/
def BLOCK_SIZE : Int := 16

/-- JUMP_SIZE = 10 (src/app.py). -/
def JUMP_SIZE : Int := 10

/-- TIMING["invincibility"] = 10000 (src/app.py). -/
def TIMING_invincibility : Nat := 10000

/-- TIMING["switch"] = 1000 (src/app.py). -/
def TIMING_switch : Nat := 1000

/-- Modelled from the spec: game/util.get_collision_direction is not under
src/.  The spec (section 4.1) describes a pure, deterministic direction
resolver; the handlers in src/app.py compare its result against the strings
"L", "R", "B" (and the remaining case, here `A`).  Each handler invocation
receives the resolved direction for its entity pair as an explicit argument. -/
inductive Dir
  | A
  | B
  | L
  | R
deriving DecidableEq

/-- Semantic category of an entity, as used by the collision dispatch. -/
inductive ThingKind
  | player
  | block
  | mob
  | item
deriving DecidableEq

/-- Modelled from the spec: an entity of the world (game/entity.py and its
subclasses are not under src/).  `key` is the physical identity of the
object, `tid` is what get_id() returns, `pos` is get_position(), `switchOn`
is the Switch._switch attribute (false for every other entity), `tempo` is
the mob tempo (0 for non-mobs). -/
structure Thing where
  key : Nat
  kind : ThingKind
  tid : String
  pos : Int × Int
  switchOn : Bool
  tempo : Int
deriving DecidableEq

/-- Modelled from the spec: game/world.World is not under src/.  The spec
(section 3) describes it as the container of the currently live entities
with a spatial query surface.  `nextKey` supplies identities for freshly
constructed entities. -/
structure World where
  things : List Thing
  nextKey : Nat
deriving DecidableEq

/-- World.remove_block / remove_mob / remove_item: detach the entity with
the given identity from the world (idempotent, per spec section 3). -/
def World.removeThing (w : World) (k : Nat) : World :=
  { w with things := w.things.filter (fun t => t.key != k) }

/-- World.add_block etc. for a freshly constructed entity (e.g.
Block("brick"), Switch_Pressed()): the new object gets a fresh identity. -/
def World.addNew (w : World) (kind : ThingKind) (tid : String) (pos : Int × Int) : World :=
  { things := w.things ++ [⟨w.nextKey, kind, tid, pos, false, 0⟩], nextKey := w.nextKey + 1 }

/-- World.add_block for an already existing object (unpress_switch re-adds
the captured switch object at the given coordinates). -/
def World.addExisting (w : World) (t : Thing) (pos : Int × Int) : World :=
  { w with things := w.things ++ [{ t with pos := pos }] }

/-- Modelled from the spec: the "things within radius R of point P" spatial
query (spec section 2, component 2): membership in the disc of radius r
around (x, y). -/
def inRange (x y r : Int) (t : Thing) : Bool :=
  decide ((t.pos.1 - x) ^ 2 + (t.pos.2 - y) ^ 2 ≤ r ^ 2)

/-- World.get_things_in_range(x, y, r). -/
def World.thingsInRange (w : World) (x y r : Int) : List Thing :=
  w.things.filter (inRange x y r)

/-- Mob.set_tempo applied to the mob with identity k inside the world. -/
def World.setTempo (w : World) (k : Nat) (v : Int) : World :=
  { w with things := w.things.map (fun t => if t.key = k then { t with tempo := v } else t) }

/-- Modelled from the spec: player.py is not under src/.  The spec
(section 3) gives the player a health clamped to [0, max_health], a
velocity vector, a jumping flag and a score. -/
structure Player where
  health : Nat
  maxHealth : Nat
  velocity : Int × Int
  jumping : Bool
  score : Int
deriving DecidableEq

/-- Modelled from the spec: Player.change_health(d) with the spec invariant
that health is clamped to [0, max_health]. -/
def Player.changeHealth (p : Player) (d : Int) : Player :=
  { p with health := (min (max ((p.health : Int) + d) 0) (p.maxHealth : Int)).toNat }

/-- Modelled from the spec: Player.is_dead — player death at health 0
(health is clamped at 0, spec sections 3 and 4.2). -/
def Player.isDead (p : Player) : Bool :=
  p.health == 0

/-- A deferred callback registered through self._master.after in
src/app.py: remove_invincibility, or unpress_switch with the arguments the
code passes to it (the captured switch object, its coordinates, the pressed
placeholder, and the recorded brick positions). -/
inductive TimerAction
  | removeInvincibility
  | unpressSwitch (block : Thing) (x y : Int) (pressedKey : Nat) (positions : List (Int × Int))
deriving DecidableEq

/-- The mutable state of MarioApp that the embedded handlers touch.
`appSwitch` is the stray self._switch attribute written at line 719 of
src/app.py; `gotoLog` records each invocation of goto_next_level as the
pair (current level, goal type); `deaths` counts invocations of the
death() restart-or-quit flow; `ended` records game_end(). -/
structure AppState where
  world : World
  player : Player
  invincibility : Bool
  onTunnel : Bool
  appSwitch : Bool
  now : Nat
  timers : List (Nat × TimerAction)
  currentLevel : String
  xStart : Int
  yStart : Int
  gotoLog : List (String × String)
  deaths : Nat
  ended : Bool
deriving DecidableEq

/-- MarioApp.set_invincibility: raise the flag and register
remove_invincibility with the Tk event loop after TIMING["invincibility"]
milliseconds (the after queue is modelled as the `timers` list). -/
def set_invincibility (s : AppState) : AppState :=
  { s with invincibility := true,
           timers := s.timers ++ [(s.now + TIMING_invincibility, TimerAction.removeInvincibility)] }

/-- MarioApp.remove_invincibility. -/
def remove_invincibility (s : AppState) : AppState :=
  { s with invincibility := false }

/-- MarioApp.reset_world: on "END" end the game, otherwise load the new
level through the world builder (external, supplied as `loadW`) and add the
player at the configured start coordinates. -/
def reset_world (loadW : String → World) (s : AppState) (newLevel : String) : AppState :=
  if newLevel = "END" then { s with ended := true }
  else
    let w := loadW newLevel
    let w : World := { things := w.things ++ [⟨w.nextKey, ThingKind.player, "player", (s.xStart, s.yStart), false, 0⟩],
                       nextKey := w.nextKey + 1 }
    { s with world := w }

/-- MarioApp.goto_next_level: record the lookup, then scan the config lines
of the current level (modelled as key-value pairs supplied by `cfg`) and
reset the world for every line whose key starts with the goal type.  Note
the code does not update current_level here. -/
def goto_next_level (cfg : String → List (String × String)) (loadW : String → World)
    (s : AppState) (ty : String) : AppState :=
  let s := { s with gotoLog := s.gotoLog ++ [(s.currentLevel, ty)] }
  (cfg s.currentLevel).foldl
    (fun s kv => if ty.isPrefixOf kv.1 then reset_world loadW s kv.2 else s) s

/-- MarioApp.unpress_switch: clear the captured switch object's _switch
flag, re-add a fresh Block("brick") at every recorded position, remove the
pressed placeholder, and re-add the switch object at its coordinates.  The
code performs no check that the world is still the one the switch belonged
to: it mutates whatever self._world currently is. -/
def unpress_switch (s : AppState) (block : Thing) (x y : Int) (pressedKey : Nat)
    (positions : List (Int × Int)) : AppState :=
  let block := { block with switchOn := false }
  let w := positions.foldl (fun w p => World.addNew w ThingKind.block "brick" p) s.world
  let w := w.removeThing pressedKey
  let w := w.addExisting block (x, y)
  { s with world := w }

/-- MarioApp._jump: only if the player is not already jumping, set the
vertical velocity to -BLOCK_SIZE * JUMP_SIZE. -/
def jump (s : AppState) : AppState :=
  if s.player.jumping = false then
    { s with player := { s.player with velocity := (s.player.velocity.1, -(BLOCK_SIZE * JUMP_SIZE)) } }
  else s

/-- One iteration of the brick-clearing loop inside
MarioApp._handle_player_collide_block: skip the player, and for each thing
whose id is "brick" record its position and remove it from the world. -/
def clearStep (acc : List (Int × Int) × World) (i : Thing) : List (Int × Int) × World :=
  if i.kind = ThingKind.player then acc
  else if i.tid = "brick" then (acc.1 ++ [i.pos], acc.2.removeThing i.key)
  else acc

/-- MarioApp._handle_player_collide_block, with the resolved collision
direction for (block, player) passed explicitly.  Block.on_hit (game/block.py,
not under src/) is modelled from the spec as having no effect for the block
kinds this file's claims cover (plain, bounce, tunnel, flag, switch,
pressed switch): the spec attributes all their behavior to this handler. -/
def handle_player_collide_block (cfg : String → List (String × String)) (loadW : String → World)
    (s : AppState) (block : Thing) (dir : Dir) : AppState × Bool :=
  let s := if dir = Dir.B then { s with player := { s.player with jumping := false } } else s
  let s := if block.tid = "bounce_block" then jump s else s
  if block.tid = "tunnel" ∧ dir = Dir.B then ({ s with onTunnel := true }, true)
  else if block.tid = "flag" then
    if dir = Dir.B then
      let s := goto_next_level cfg loadW s "goal"
      let s := { s with player := s.player.changeHealth ((s.player.maxHealth : Int) - (s.player.health : Int)) }
      (s, true)
    else (goto_next_level cfg loadW s "goal", true)
  else if block.tid = "switch_pressed" then (s, false)
  else if block.tid = "switch" then
    if block.switchOn = false then
      if dir = Dir.B then
        let s0 := { s with appSwitch := true }
        let x := block.pos.1
        let y := block.pos.2
        let snapshot := s0.world.thingsInRange x y (BLOCK_SIZE * 10)
        let acc := snapshot.foldl clearStep ([], s0.world)
        let w := (acc.2.removeThing block.key)
        let pressedKey := w.nextKey
        let w := w.addNew ThingKind.block "switch_pressed" (x, y)
        ({ s0 with world := w,
                   timers := s0.timers ++ [(s0.now + TIMING_switch,
                     TimerAction.unpressSwitch { block with switchOn := true } x y pressedKey acc.1)] }, true)
      else (s, true)
    else (s, false)
  else (s, true)

/-- MarioApp._handle_mob_collide_block, with the resolved direction for
(block, mob) passed explicitly. -/
def handle_mob_collide_block (w : World) (mob block : Thing) (dir : Dir) : World × Bool :=
  if mob.tid = "fireball" then
    let w := if block.tid = "brick" then w.removeThing block.key else w
    (w.removeThing mob.key, true)
  else if mob.tid = "mushroom" then
    if dir = Dir.R ∨ dir = Dir.L then (w.setTempo mob.key (-mob.tempo), true)
    else (w, true)
  else if block.tid = "switch_pressed" then (w, false)
  else (w, true)

/-- MarioApp._handle_player_collide_mob, with the resolved direction for
(mob, player) passed explicitly.  `mobOnHit` stands for Mob.on_hit
(game/mob.py, not under src/): the generic on-hit side effect the code
delegates to for mobs that are not mushrooms. -/
def handle_player_collide_mob (mobOnHit : AppState → Thing → AppState)
    (s : AppState) (mob : Thing) (dir : Dir) : AppState × Bool :=
  let s :=
    if s.invincibility then { s with world := s.world.removeThing mob.key }
    else
      if mob.tid = "mushroom" then
        if dir = Dir.R then
          let p := s.player.changeHealth (-1)
          { s with player := { p with velocity := (-100, p.velocity.2) } }
        else if dir = Dir.L then
          let p := s.player.changeHealth (-1)
          { s with player := { p with velocity := (100, p.velocity.2) } }
        else if dir = Dir.B then
          let p := { s.player with velocity := (s.player.velocity.1, -(BLOCK_SIZE * 7)), jumping := true }
          { s with player := p, world := s.world.removeThing mob.key }
        else s
      else mobOnHit s mob
  let s := if s.player.isDead then { s with deaths := s.deaths + 1 } else s
  (s, true)

/-- MarioApp._handle_player_collide_item.  `collect` stands for
DroppedItem.collect (game/item.py, not under src/), which per the spec adds
the item's value to the player's score. -/
def handle_player_collide_item (collect : Thing → Player → Player)
    (s : AppState) (item : Thing) : AppState × Bool :=
  let s := if item.tid = "star" then set_invincibility s else s
  let s := { s with player := collect item s.player }
  let s := { s with world := s.world.removeThing item.key }
  (s, false)

/-- Run a fired deferred callback against the current application state. -/
def runTimerAction (s : AppState) : TimerAction → AppState
  | TimerAction.removeInvincibility => remove_invincibility s
  | TimerAction.unpressSwitch b x y pk ps => unpress_switch s b x y pk ps

/-- Smallest deadline in the pending-timer queue. -/
def minDeadline : List (Nat × TimerAction) → Option Nat
  | [] => none
  | (d, _) :: ts =>
    some (match minDeadline ts with
      | none => d
      | some m => Nat.min d m)

/-- Remove the first queue entry with the given deadline. -/
def popFirstWith (d : Nat) : List (Nat × TimerAction) → Option (TimerAction × List (Nat × TimerAction))
  | [] => none
  | (d2, a) :: ts =>
    if d2 = d then some (a, ts)
    else
      match popFirstWith d ts with
      | none => none
      | some (a2, rest) => some (a2, (d2, a) :: rest)

/-- Modelled from the spec: the Tk event loop's deferred-call queue (spec
sections 4.3 and 9): when the current time has reached the earliest
deadline, fire that action (first-scheduled-first among equal deadlines),
removing it from the queue. -/
def fireFirstDue (s : AppState) : AppState :=
  match minDeadline s.timers with
  | none => s
  | some d =>
    if d ≤ s.now then
      match popFirstWith d s.timers with
      | none => s
      | some (a, rest) => runTimerAction { s with timers := rest } a
    else s

/-- Well-formedness of a world as produced by the world builder: entity
identities are distinct and below the fresh-identity supply, and only
blocks can carry the id "brick" (the builder gives mobs the ids cloud,
fireball, mushroom, items coin and star, and the player its name). -/
def World.wf (w : World) : Prop :=
  (w.things.map Thing.key).Nodup ∧
  (∀ t ∈ w.things, t.key < w.nextKey) ∧
  (∀ t ∈ w.things, t.kind ≠ ThingKind.block → t.tid ≠ "brick")

instance (w : World) : Decidable w.wf := by
  unfold World.wf
  infer_instance

theorem mem_removeThing (w : World) (k : Nat) (t : Thing) :
    t ∈ (w.removeThing k).things ↔ t ∈ w.things ∧ t.key ≠ k := by
  simp [World.removeThing, List.mem_filter]

theorem removeThing_nextKey (w : World) (k : Nat) :
    (w.removeThing k).nextKey = w.nextKey := rfl

theorem mem_addNew (w : World) (kind : ThingKind) (tid : String) (pos : Int × Int) (t : Thing) :
    t ∈ (w.addNew kind tid pos).things ↔
      t ∈ w.things ∨ t = ⟨w.nextKey, kind, tid, pos, false, 0⟩ := by
  simp [World.addNew]

theorem key_inj {w : World} (h : (w.things.map Thing.key).Nodup)
    {a b : Thing} (ha : a ∈ w.things) (hb : b ∈ w.things) (hk : a.key = b.key) : a = b :=
  List.inj_on_of_nodup_map h ha hb hk

theorem clearStep_player {i : Thing} (acc : List (Int × Int) × World)
    (h : i.kind = ThingKind.player) : clearStep acc i = acc := by
  simp [clearStep, h]

theorem clearStep_brick {i : Thing} (acc : List (Int × Int) × World)
    (hk : i.kind ≠ ThingKind.player) (hb : i.tid = "brick") :
    clearStep acc i = (acc.1 ++ [i.pos], acc.2.removeThing i.key) := by
  simp [clearStep, hk, hb]

theorem clearStep_other {i : Thing} (acc : List (Int × Int) × World)
    (hk : i.kind ≠ ThingKind.player) (hb : i.tid ≠ "brick") : clearStep acc i = acc := by
  simp [clearStep, hk, hb]

/-- Membership in the world after the brick-clearing loop: a thing survives
iff it was there before and its identity is not that of a removed brick. -/
theorem mem_clearFold (l : List Thing) (ps : List (Int × Int)) (w : World) (t : Thing) :
    t ∈ (l.foldl clearStep (ps, w)).2.things ↔
      (t ∈ w.things ∧
        ∀ i ∈ l, i.kind ≠ ThingKind.player → i.tid = "brick" → t.key ≠ i.key) := by
  induction l generalizing ps w with
  | nil => simp
  | cons i l ih =>
    simp only [List.foldl_cons, List.forall_mem_cons]
    by_cases hk : i.kind = ThingKind.player
    · rw [clearStep_player _ hk, ih]
      constructor
      · rintro ⟨h1, h2⟩
        exact ⟨h1, fun hkk => absurd hk hkk, h2⟩
      · rintro ⟨h1, _, h2⟩
        exact ⟨h1, h2⟩
    · by_cases hb : i.tid = "brick"
      · rw [clearStep_brick _ hk hb, ih]
        simp only [mem_removeThing]
        constructor
        · rintro ⟨⟨h1, h3⟩, h2⟩
          exact ⟨h1, fun _ _ => h3, h2⟩
        · rintro ⟨h1, h3, h2⟩
          exact ⟨⟨h1, h3 hk hb⟩, h2⟩
      · rw [clearStep_other _ hk hb, ih]
        constructor
        · rintro ⟨h1, h2⟩
          exact ⟨h1, fun _ hbb => absurd hbb hb, h2⟩
        · rintro ⟨h1, _, h2⟩
          exact ⟨h1, h2⟩

theorem clearFold_nextKey (l : List Thing) (ps : List (Int × Int)) (w : World) :
    (l.foldl clearStep (ps, w)).2.nextKey = w.nextKey := by
  induction l generalizing ps w with
  | nil => rfl
  | cons i l ih =>
    simp only [List.foldl_cons]
    by_cases hk : i.kind = ThingKind.player
    · rw [clearStep_player _ hk]; exact ih _ _
    · by_cases hb : i.tid = "brick"
      · rw [clearStep_brick _ hk hb]; exact ih _ _
      · rw [clearStep_other _ hk hb]; exact ih _ _

theorem reset_world_player (loadW : String → World) (s : AppState) (lv : String) :
    (reset_world loadW s lv).player = s.player := by
  unfold reset_world
  split <;> rfl

theorem reset_world_gotoLog (loadW : String → World) (s : AppState) (lv : String) :
    (reset_world loadW s lv).gotoLog = s.gotoLog := by
  unfold reset_world
  split <;> rfl

theorem foldl_reset_player (loadW : String → World) (ty : String)
    (l : List (String × String)) (s : AppState) :
    (l.foldl (fun s kv => if ty.isPrefixOf kv.1 then reset_world loadW s kv.2 else s) s).player
      = s.player := by
  induction l generalizing s with
  | nil => rfl
  | cons kv l ih =>
    simp only [List.foldl_cons]
    rw [ih]
    split
    · exact reset_world_player loadW s kv.2
    · rfl

theorem foldl_reset_gotoLog (loadW : String → World) (ty : String)
    (l : List (String × String)) (s : AppState) :
    (l.foldl (fun s kv => if ty.isPrefixOf kv.1 then reset_world loadW s kv.2 else s) s).gotoLog
      = s.gotoLog := by
  induction l generalizing s with
  | nil => rfl
  | cons kv l ih =>
    simp only [List.foldl_cons]
    rw [ih]
    split
    · exact reset_world_gotoLog loadW s kv.2
    · rfl

theorem goto_next_level_player (cfg : String → List (String × String)) (loadW : String → World)
    (s : AppState) (ty : String) :
    (goto_next_level cfg loadW s ty).player = s.player := by
  unfold goto_next_level
  rw [foldl_reset_player]

theorem goto_next_level_gotoLog (cfg : String → List (String × String)) (loadW : String → World)
    (s : AppState) (ty : String) :
    (goto_next_level cfg loadW s ty).gotoLog = s.gotoLog ++ [(s.currentLevel, ty)] := by
  unfold goto_next_level
  rw [foldl_reset_gotoLog]

/-- The state produced by the switch-press branch of
handle_player_collide_block (top-face contact on an unpressed switch):
clear the jump lock, set the stray app attribute, run the brick-clearing
loop over the things within BLOCK_SIZE * 10 of the switch, remove the
switch, add the pressed placeholder, and register the revert timer. -/
def pressResult (s : AppState) (block : Thing) : AppState :=
  let s0 : AppState := { s with player := { s.player with jumping := false }, appSwitch := true }
  let acc := (s0.world.thingsInRange block.pos.1 block.pos.2 (BLOCK_SIZE * 10)).foldl clearStep
    ([], s0.world)
  let w := acc.2.removeThing block.key
  let w2 := w.addNew ThingKind.block "switch_pressed" (block.pos.1, block.pos.2)
  { s0 with world := w2,
            timers := s0.timers ++ [(s0.now + TIMING_switch,
              TimerAction.unpressSwitch { block with switchOn := true } block.pos.1 block.pos.2
                w.nextKey acc.1)] }

theorem handle_block_press (cfg : String → List (String × String)) (loadW : String → World)
    (s : AppState) (block : Thing)
    (htid : block.tid = "switch") (hoff : block.switchOn = false) :
    handle_player_collide_block cfg loadW s block Dir.B = (pressResult s block, true) := by
  simp [handle_player_collide_block, pressResult, htid, hoff]

/-- Sample entities and worlds used as concrete inputs for witnesses and
counterexamples. -/
def p0 : Player := { health := 5, maxHealth := 5, velocity := (0, 0), jumping := false, score := 0 }

def switchB : Thing := ⟨1, ThingKind.block, "switch", (0, 0), false, 0⟩

def w1 : World :=
  { things := [⟨0, ThingKind.player, "player", (0, 100), false, 0⟩,
               switchB,
               ⟨2, ThingKind.block, "brick", (16, 0), false, 0⟩,
               ⟨3, ThingKind.block, "brick_base", (32, 0), false, 0⟩,
               ⟨4, ThingKind.block, "cube", (48, 0), false, 0⟩,
               ⟨5, ThingKind.mob, "mushroom", (64, 0), false, 15⟩,
               ⟨6, ThingKind.item, "coin", (80, 0), false, 0⟩], nextKey := 7 }

def cfg0 : String → List (String × String) := fun _ => []

def w2 : World := { things := [⟨100, ThingKind.block, "cube", (0, 0), false, 0⟩], nextKey := 101 }

def loadW0 : String → World := fun _ => w2

def s0 : AppState :=
  { world := w1, player := p0, invincibility := false, onTunnel := false, appSwitch := false,
    now := 0, timers := [], currentLevel := "level1.txt", xStart := 0, yStart := 100,
    gotoLog := [], deaths := 0, ended := false }

def pressedB2 : Thing := ⟨30, ThingKind.block, "switch_pressed", (0, 0), false, 0⟩

def onSwitchB3 : Thing := ⟨31, ThingKind.block, "switch", (0, 0), true, 0⟩

/-- C2 (counterexample): a player–block begin collision with an unpressed
switch on its left face leaves the world and the timer queue untouched and
accepts the collision, although a brick sits within the configured radius —
so not every collision with an unpressed switch performs the
area-clear-and-timer effect. -/
theorem c2_counterexample :
    (handle_player_collide_block cfg0 loadW0 s0 switchB Dir.L).2 = true ∧
    (handle_player_collide_block cfg0 loadW0 s0 switchB Dir.L).1.world = s0.world ∧
    (handle_player_collide_block cfg0 loadW0 s0 switchB Dir.L).1.timers = [] ∧
    switchB.switchOn = false ∧
    (∃ t ∈ s0.world.things, t.tid = "brick" ∧
       inRange switchB.pos.1 switchB.pos.2 (BLOCK_SIZE * 10) t = true) := by
  decide

/-- C2 (amended): on a top-face begin collision with an unpressed switch
the handler performs the area-clear-and-timer effect — every brick-type
block within the configured radius is removed, the switch is replaced by a
pressed placeholder at its position, and the revert timer is scheduled —
a collision with an unpressed switch on any other face leaves the state
completely unchanged and is accepted, and any collision while pressed
(with the placeholder or the already-triggered switch object) performs no
area-clear and returns False. -/
theorem c2_switch_press_top_face_only
    (cfg : String → List (String × String)) (loadW : String → World)
    (s : AppState) (block : Thing)
    (hwf : s.world.wf) (hmem : block ∈ s.world.things)
    (htid : block.tid = "switch") (hoff : block.switchOn = false)
    (s2 : AppState) (b2 : Thing) (d2 : Dir) (h2 : b2.tid = "switch_pressed")
    (s3 : AppState) (b3 : Thing) (d3 : Dir) (h3a : b3.tid = "switch") (h3b : b3.switchOn = true)
    (s4 : AppState) (b4 : Thing) (d4 : Dir)
    (h4a : b4.tid = "switch") (h4b : b4.switchOn = false) (h4c : d4 ≠ Dir.B) :
    ((handle_player_collide_block cfg loadW s block Dir.B).2 = true ∧
     (∀ t ∈ s.world.things, t.kind = ThingKind.block → t.tid = "brick" →
        inRange block.pos.1 block.pos.2 (BLOCK_SIZE * 10) t = true →
        t ∉ (handle_player_collide_block cfg loadW s block Dir.B).1.world.things) ∧
     (∃ t ∈ (handle_player_collide_block cfg loadW s block Dir.B).1.world.things,
        t.tid = "switch_pressed" ∧ t.pos = block.pos) ∧
     block ∉ (handle_player_collide_block cfg loadW s block Dir.B).1.world.things ∧
     (∃ k ps, (handle_player_collide_block cfg loadW s block Dir.B).1.timers =
        s.timers ++ [(s.now + TIMING_switch,
          TimerAction.unpressSwitch { block with switchOn := true } block.pos.1 block.pos.2 k ps)])) ∧
    ((handle_player_collide_block cfg loadW s2 b2 d2).2 = false ∧
     (handle_player_collide_block cfg loadW s2 b2 d2).1.world = s2.world ∧
     (handle_player_collide_block cfg loadW s2 b2 d2).1.timers = s2.timers) ∧
    ((handle_player_collide_block cfg loadW s3 b3 d3).2 = false ∧
     (handle_player_collide_block cfg loadW s3 b3 d3).1.world = s3.world ∧
     (handle_player_collide_block cfg loadW s3 b3 d3).1.timers = s3.timers) ∧
    handle_player_collide_block cfg loadW s4 b4 d4 = (s4, true) := by
  obtain ⟨hnd, hkey, hid⟩ := hwf
  rw [handle_block_press cfg loadW s block htid hoff]
  refine ⟨⟨rfl, ?_, ?_, ?_, ?_⟩, ?_, ?_, ?_⟩
  · intro t ht hk hb hr
    show t ∉ (World.addNew _ _ _ _).things
    rw [mem_addNew]
    push_neg
    constructor
    · rw [mem_removeThing, mem_clearFold]
      rintro ⟨⟨-, hall⟩, -⟩
      exact hall t (by simp [World.thingsInRange, List.mem_filter, ht, hr])
        (by simp [hk]) hb rfl
    · intro hEq
      have hkeq := congrArg Thing.key hEq
      simp only [removeThing_nextKey, clearFold_nextKey] at hkeq
      exact absurd hkeq (Nat.ne_of_lt (hkey t ht))
  · exact ⟨⟨(((s.world.thingsInRange block.pos.1 block.pos.2 (BLOCK_SIZE * 10)).foldl clearStep
        ([], s.world)).2.removeThing block.key).nextKey,
      ThingKind.block, "switch_pressed", (block.pos.1, block.pos.2), false, 0⟩,
      (mem_addNew _ _ _ _ _).mpr (Or.inr rfl), rfl, Prod.mk.eta⟩
  · show block ∉ (World.addNew _ _ _ _).things
    rw [mem_addNew]
    push_neg
    constructor
    · rw [mem_removeThing]
      rintro ⟨-, hne⟩
      exact hne rfl
    · intro hEq
      have hkeq := congrArg Thing.key hEq
      simp only [removeThing_nextKey, clearFold_nextKey] at hkeq
      exact absurd hkeq (Nat.ne_of_lt (hkey block hmem))
  · exact ⟨_, _, rfl⟩
  · cases d2 <;> simp [handle_player_collide_block, h2]
  · cases d3 <;> simp [handle_player_collide_block, h3a, h3b]
  · cases d4 with
    | B => exact absurd rfl h4c
    | A => simp [handle_player_collide_block, h4a, h4b]
    | L => simp [handle_player_collide_block, h4a, h4b]
    | R => simp [handle_player_collide_block, h4a, h4b]

/-- C2 witness: the amended switch theorem applied to the concrete level-1
world whose brick at (16, 0) lies within the radius of the switch at the
origin. -/
theorem c2_witness :
    (s0.world.wf ∧ switchB ∈ s0.world.things ∧ switchB.tid = "switch" ∧
     switchB.switchOn = false) ∧
    (((handle_player_collide_block cfg0 loadW0 s0 switchB Dir.B).2 = true ∧
      (∀ t ∈ s0.world.things, t.kind = ThingKind.block → t.tid = "brick" →
        inRange switchB.pos.1 switchB.pos.2 (BLOCK_SIZE * 10) t = true →
        t ∉ (handle_player_collide_block cfg0 loadW0 s0 switchB Dir.B).1.world.things) ∧
      (∃ t ∈ (handle_player_collide_block cfg0 loadW0 s0 switchB Dir.B).1.world.things,
        t.tid = "switch_pressed" ∧ t.pos = switchB.pos) ∧
      switchB ∉ (handle_player_collide_block cfg0 loadW0 s0 switchB Dir.B).1.world.things ∧
      (∃ k ps, (handle_player_collide_block cfg0 loadW0 s0 switchB Dir.B).1.timers =
        s0.timers ++ [(s0.now + TIMING_switch,
          TimerAction.unpressSwitch { switchB with switchOn := true } switchB.pos.1 switchB.pos.2
            k ps)])) ∧
     ((handle_player_collide_block cfg0 loadW0 s0 pressedB2 Dir.L).2 = false ∧
      (handle_player_collide_block cfg0 loadW0 s0 pressedB2 Dir.L).1.world = s0.world ∧
      (handle_player_collide_block cfg0 loadW0 s0 pressedB2 Dir.L).1.timers = s0.timers) ∧
     ((handle_player_collide_block cfg0 loadW0 s0 onSwitchB3 Dir.R).2 = false ∧
      (handle_player_collide_block cfg0 loadW0 s0 onSwitchB3 Dir.R).1.world = s0.world ∧
      (handle_player_collide_block cfg0 loadW0 s0 onSwitchB3 Dir.R).1.timers = s0.timers) ∧
     handle_player_collide_block cfg0 loadW0 s0 switchB Dir.L = (s0, true)) :=
  ⟨⟨by decide, by decide, rfl, rfl⟩,
   c2_switch_press_top_face_only cfg0 loadW0 s0 switchB (by decide) (by decide) rfl rfl
     s0 pressedB2 Dir.L rfl s0 onSwitchB3 Dir.R rfl rfl
     s0 switchB Dir.L rfl rfl (by decide)⟩

/-- C10: when an unpressed switch is pressed, the only entities removed
from the world are the switch itself and blocks with id "brick" within
the radius; every other entity in the world — the player, blocks of other
ids, mobs, items — is still there afterwards. -/
theorem c10_area_clear_frame
    (cfg : String → List (String × String)) (loadW : String → World)
    (s : AppState) (block : Thing)
    (hwf : s.world.wf) (hmem : block ∈ s.world.things)
    (htid : block.tid = "switch") (hoff : block.switchOn = false) :
    (∀ t ∈ s.world.things,
       t ∉ (handle_player_collide_block cfg loadW s block Dir.B).1.world.things →
       t = block ∨ (t.kind = ThingKind.block ∧ t.tid = "brick" ∧
                    inRange block.pos.1 block.pos.2 (BLOCK_SIZE * 10) t = true)) ∧
    (∀ t ∈ s.world.things, t ≠ block →
       ¬(t.tid = "brick" ∧ inRange block.pos.1 block.pos.2 (BLOCK_SIZE * 10) t = true) →
       t ∈ (handle_player_collide_block cfg loadW s block Dir.B).1.world.things) := by
  obtain ⟨hnd, hkey, hid⟩ := hwf
  rw [handle_block_press cfg loadW s block htid hoff]
  have preserved : ∀ t ∈ s.world.things, t ≠ block →
      ¬(t.tid = "brick" ∧ inRange block.pos.1 block.pos.2 (BLOCK_SIZE * 10) t = true) →
      t ∈ (pressResult s block, true).1.world.things := by
    intro t ht hne hnb
    show t ∈ (World.addNew _ _ _ _).things
    rw [mem_addNew]
    left
    rw [mem_removeThing]
    refine ⟨?_, fun hkeq => hne (key_inj hnd ht hmem hkeq)⟩
    rw [mem_clearFold]
    refine ⟨ht, ?_⟩
    intro i hi hipl hib
    have hi2 : i ∈ s.world.things ∧ inRange block.pos.1 block.pos.2 (BLOCK_SIZE * 10) i = true := by
      simpa [World.thingsInRange, List.mem_filter] using hi
    intro hkeq
    have hti : t = i := key_inj hnd ht hi2.1 hkeq
    exact hnb ⟨hti ▸ hib, hti ▸ hi2.2⟩
  refine ⟨?_, preserved⟩
  intro t ht hnotin
  by_contra hcon
  push_neg at hcon
  obtain ⟨hne, hrest⟩ := hcon
  apply hnotin
  apply preserved t ht hne
  rintro ⟨hb, hr⟩
  have hkind : t.kind = ThingKind.block := by
    by_contra hk
    exact (hid t ht hk) hb
  exact hrest hkind hb hr

/-- C10 witness: the frame property applied to the concrete level-1 world,
which holds a brick_base, a cube, a mushroom, a coin and the player next to
the switch and the brick. -/
theorem c10_witness :
    (s0.world.wf ∧ switchB ∈ s0.world.things ∧ switchB.tid = "switch" ∧
     switchB.switchOn = false) ∧
    ((∀ t ∈ s0.world.things,
       t ∉ (handle_player_collide_block cfg0 loadW0 s0 switchB Dir.B).1.world.things →
       t = switchB ∨ (t.kind = ThingKind.block ∧ t.tid = "brick" ∧
                    inRange switchB.pos.1 switchB.pos.2 (BLOCK_SIZE * 10) t = true)) ∧
     (∀ t ∈ s0.world.things, t ≠ switchB →
       ¬(t.tid = "brick" ∧ inRange switchB.pos.1 switchB.pos.2 (BLOCK_SIZE * 10) t = true) →
       t ∈ (handle_player_collide_block cfg0 loadW0 s0 switchB Dir.B).1.world.things)) :=
  ⟨⟨by decide, by decide, rfl, rfl⟩,
   c10_area_clear_frame cfg0 loadW0 s0 switchB (by decide) (by decide) rfl rfl⟩

def flagB : Thing := ⟨41, ThingKind.block, "flag", (200, 0), false, 0⟩

def p3 : Player := { health := 2, maxHealth := 5, velocity := (0, 0), jumping := false, score := 0 }

def s3c : AppState := { s0 with player := p3 }

/-- C3 (counterexample): a player at health 2 of 5 collides with a flag
block on its left face; the goal lookup for the current level is invoked
but the health stays exactly 2 — the player receives no heal at all, not a
partial one. -/
theorem c3_counterexample :
    s3c.player.health = 2 ∧ s3c.player.maxHealth = 5 ∧
    (handle_player_collide_block cfg0 loadW0 s3c flagB Dir.L).1.player.health = 2 ∧
    (handle_player_collide_block cfg0 loadW0 s3c flagB Dir.L).1.gotoLog
      = [("level1.txt", "goal")] := by
  decide

/-- C3 (amended): every player–block begin collision with a flag block
invokes the next-level lookup for key "goal" under the current level; a
top-face contact sets the player's health to max, and any other contact
face leaves the health unchanged (no heal). -/
theorem c3_flag_goal_heal (cfg : String → List (String × String)) (loadW : String → World)
    (s : AppState) (block : Thing) (dir : Dir) (htid : block.tid = "flag") :
    (handle_player_collide_block cfg loadW s block dir).1.gotoLog
        = s.gotoLog ++ [(s.currentLevel, "goal")] ∧
    (dir = Dir.B →
      (handle_player_collide_block cfg loadW s block dir).1.player.health = s.player.maxHealth) ∧
    (dir ≠ Dir.B →
      (handle_player_collide_block cfg loadW s block dir).1.player.health = s.player.health) ∧
    (handle_player_collide_block cfg loadW s block dir).2 = true := by
  cases dir <;>
    simp [handle_player_collide_block, htid, goto_next_level_gotoLog, goto_next_level_player,
      Player.changeHealth]

/-- C3 witness: the amended flag theorem applied to a concrete top-face
contact. -/
theorem c3_witness :
    flagB.tid = "flag" ∧
    ((handle_player_collide_block cfg0 loadW0 s3c flagB Dir.B).1.gotoLog
        = s3c.gotoLog ++ [(s3c.currentLevel, "goal")] ∧
     (Dir.B = Dir.B →
       (handle_player_collide_block cfg0 loadW0 s3c flagB Dir.B).1.player.health
         = s3c.player.maxHealth) ∧
     (Dir.B ≠ Dir.B →
       (handle_player_collide_block cfg0 loadW0 s3c flagB Dir.B).1.player.health
         = s3c.player.health) ∧
     (handle_player_collide_block cfg0 loadW0 s3c flagB Dir.B).2 = true) :=
  ⟨rfl, c3_flag_goal_heal cfg0 loadW0 s3c flagB Dir.B rfl⟩

def fireballMob : Thing := ⟨20, ThingKind.mob, "fireball", (0, 0), false, 0⟩

def cloudMob : Thing := ⟨23, ThingKind.mob, "cloud", (8, 0), false, 0⟩

def w4 : World := { things := [fireballMob, cloudMob, pressedB2], nextKey := 40 }

def mushroomMob : Thing := ⟨5, ThingKind.mob, "mushroom", (64, 0), false, 15⟩

/-- C4 (counterexample): both a fireball–pressed-switch and a
mushroom–pressed-switch begin collision are accepted (return True): the
fireball and mushroom branches of the elif chain run first and the
pressed-switch rejection is never reached for either of them. -/
theorem c4_counterexample :
    fireballMob.tid = "fireball" ∧ mushroomMob.tid = "mushroom" ∧
    pressedB2.tid = "switch_pressed" ∧
    (handle_mob_collide_block w4 fireballMob pressedB2 Dir.L).2 = true ∧
    (handle_mob_collide_block w4 mushroomMob pressedB2 Dir.L).2 = true := by
  decide

/-- C4 (amended): for a mob–block begin collision with a pressed switch,
the handler returns False (with the world untouched) exactly for the mobs
that are neither a fireball nor a mushroom (cloud, generic); a fireball
collision with a pressed switch is accepted (returns True), and a mushroom
collision with a pressed switch is accepted (returns True), in every world
and for every contact direction. -/
theorem c4_pressed_switch_mob_cases (w : World) (mob block : Thing) (dir : Dir)
    (hb : block.tid = "switch_pressed")
    (h1 : mob.tid ≠ "fireball") (h2 : mob.tid ≠ "mushroom")
    (w2 : World) (mobF block2 : Thing) (d2 : Dir)
    (hf : mobF.tid = "fireball") (hb2 : block2.tid = "switch_pressed")
    (w3 : World) (mobM block3 : Thing) (d3 : Dir)
    (hmm : mobM.tid = "mushroom") (hb3 : block3.tid = "switch_pressed") :
    handle_mob_collide_block w mob block dir = (w, false) ∧
    (handle_mob_collide_block w2 mobF block2 d2).2 = true ∧
    (handle_mob_collide_block w3 mobM block3 d3).2 = true := by
  refine ⟨?_, ?_, ?_⟩
  · simp [handle_mob_collide_block, hb, h1, h2]
  · simp [handle_mob_collide_block, hf]
  · cases d3 <;> simp [handle_mob_collide_block, hmm]

/-- C4 witness: the amended theorem applied to a concrete cloud mob (the
rejected case) together with the concrete fireball and mushroom (the
accepted cases) against the pressed placeholder. -/
theorem c4_witness :
    (pressedB2.tid = "switch_pressed" ∧ cloudMob.tid ≠ "fireball" ∧ cloudMob.tid ≠ "mushroom" ∧
     fireballMob.tid = "fireball" ∧ mushroomMob.tid = "mushroom") ∧
    (handle_mob_collide_block w4 cloudMob pressedB2 Dir.L = (w4, false) ∧
     (handle_mob_collide_block w4 fireballMob pressedB2 Dir.R).2 = true ∧
     (handle_mob_collide_block w4 mushroomMob pressedB2 Dir.A).2 = true) :=
  ⟨⟨rfl, by decide, by decide, rfl, rfl⟩,
   c4_pressed_switch_mob_cases w4 cloudMob pressedB2 Dir.L rfl (by decide) (by decide)
     w4 fireballMob pressedB2 Dir.R rfl rfl
     w4 mushroomMob pressedB2 Dir.A rfl rfl⟩

def mobOnHit0 : AppState → Thing → AppState := fun s _ => s

def sInv : AppState := { s0 with invincibility := true }

/-- C6: while the player's invincibility flag is set, a player–mob begin
collision removes the mob from the world and leaves the player (in
particular the health) completely unchanged, for every mob kind and every
contact direction. -/
theorem c6_invincible_mob_removed_no_damage (mobOnHit : AppState → Thing → AppState)
    (s : AppState) (mob : Thing) (dir : Dir) (hinv : s.invincibility = true) :
    (handle_player_collide_mob mobOnHit s mob dir).1.player = s.player ∧
    (∀ t ∈ (handle_player_collide_mob mobOnHit s mob dir).1.world.things, t.key ≠ mob.key) := by
  by_cases hd : s.player.isDead = true <;>
    simp [handle_player_collide_mob, hinv, hd, mem_removeThing]

/-- C6 witness: the invincibility theorem applied to a concrete mushroom
collision. -/
theorem c6_witness :
    sInv.invincibility = true ∧
    ((handle_player_collide_mob mobOnHit0 sInv mushroomMob Dir.R).1.player = sInv.player ∧
     (∀ t ∈ (handle_player_collide_mob mobOnHit0 sInv mushroomMob Dir.R).1.world.things,
        t.key ≠ mushroomMob.key)) :=
  ⟨rfl, c6_invincible_mob_removed_no_damage mobOnHit0 sInv mushroomMob Dir.R rfl⟩

/-- C7: a non-invincible player colliding with a mushroom. Side hit on the
mob's right face: health drops by exactly 1, horizontal velocity is set to
-100 (pushed left, away from the mob), vertical velocity kept, mob
survives (world unchanged).  Side hit on its left face: symmetric with
+100.  Top-face hit: upward impulse -BLOCK_SIZE * 7, jumping flag set,
health unchanged, mob removed.  Whenever the resulting health is 0 the
death (restart-or-quit) flow is triggered. -/
theorem c7_mushroom_collision_effects (mobOnHit : AppState → Thing → AppState)
    (s : AppState) (mob : Thing)
    (hm : mob.tid = "mushroom") (hinv : s.invincibility = false)
    (hh : 0 < s.player.health) (hhm : s.player.health ≤ s.player.maxHealth) :
    ((handle_player_collide_mob mobOnHit s mob Dir.R).1.player.health = s.player.health - 1 ∧
     (handle_player_collide_mob mobOnHit s mob Dir.R).1.player.velocity.1 = -100 ∧
     (handle_player_collide_mob mobOnHit s mob Dir.R).1.player.velocity.2 = s.player.velocity.2 ∧
     (handle_player_collide_mob mobOnHit s mob Dir.R).1.world = s.world) ∧
    ((handle_player_collide_mob mobOnHit s mob Dir.L).1.player.health = s.player.health - 1 ∧
     (handle_player_collide_mob mobOnHit s mob Dir.L).1.player.velocity.1 = 100 ∧
     (handle_player_collide_mob mobOnHit s mob Dir.L).1.player.velocity.2 = s.player.velocity.2 ∧
     (handle_player_collide_mob mobOnHit s mob Dir.L).1.world = s.world) ∧
    ((handle_player_collide_mob mobOnHit s mob Dir.B).1.player.velocity.2 = -(BLOCK_SIZE * 7) ∧
     (handle_player_collide_mob mobOnHit s mob Dir.B).1.player.jumping = true ∧
     (handle_player_collide_mob mobOnHit s mob Dir.B).1.player.health = s.player.health ∧
     (∀ t ∈ (handle_player_collide_mob mobOnHit s mob Dir.B).1.world.things,
        t.key ≠ mob.key)) ∧
    (∀ dir : Dir,
       (handle_player_collide_mob mobOnHit s mob dir).1.player.health = 0 →
       (handle_player_collide_mob mobOnHit s mob dir).1.deaths = s.deaths + 1) := by
  refine ⟨?_, ?_, ?_, ?_⟩
  · simp [handle_player_collide_mob, hm, hinv, Player.changeHealth, Player.isDead, apply_ite]
    omega
  · simp [handle_player_collide_mob, hm, hinv, Player.changeHealth, Player.isDead, apply_ite]
    omega
  · simp [handle_player_collide_mob, hm, hinv, Player.isDead, apply_ite, mem_removeThing]
  · intro dir
    cases dir <;>
      simp [handle_player_collide_mob, hm, hinv, Player.changeHealth, Player.isDead,
        apply_ite] <;>
      omega

def p7 : Player := { health := 3, maxHealth := 5, velocity := (0, 0), jumping := false, score := 0 }

def s7 : AppState := { s0 with player := p7 }

/-- C7 witness: the mushroom theorem applied to the spec scenario — player
at health 3 of 5, not invincible. -/
theorem c7_witness :
    (mushroomMob.tid = "mushroom" ∧ s7.invincibility = false ∧ 0 < s7.player.health ∧
     s7.player.health ≤ s7.player.maxHealth) ∧
    (((handle_player_collide_mob mobOnHit0 s7 mushroomMob Dir.R).1.player.health
          = s7.player.health - 1 ∧
      (handle_player_collide_mob mobOnHit0 s7 mushroomMob Dir.R).1.player.velocity.1 = -100 ∧
      (handle_player_collide_mob mobOnHit0 s7 mushroomMob Dir.R).1.player.velocity.2
          = s7.player.velocity.2 ∧
      (handle_player_collide_mob mobOnHit0 s7 mushroomMob Dir.R).1.world = s7.world) ∧
     ((handle_player_collide_mob mobOnHit0 s7 mushroomMob Dir.L).1.player.health
          = s7.player.health - 1 ∧
      (handle_player_collide_mob mobOnHit0 s7 mushroomMob Dir.L).1.player.velocity.1 = 100 ∧
      (handle_player_collide_mob mobOnHit0 s7 mushroomMob Dir.L).1.player.velocity.2
          = s7.player.velocity.2 ∧
      (handle_player_collide_mob mobOnHit0 s7 mushroomMob Dir.L).1.world = s7.world) ∧
     ((handle_player_collide_mob mobOnHit0 s7 mushroomMob Dir.B).1.player.velocity.2
          = -(BLOCK_SIZE * 7) ∧
      (handle_player_collide_mob mobOnHit0 s7 mushroomMob Dir.B).1.player.jumping = true ∧
      (handle_player_collide_mob mobOnHit0 s7 mushroomMob Dir.B).1.player.health
          = s7.player.health ∧
      (∀ t ∈ (handle_player_collide_mob mobOnHit0 s7 mushroomMob Dir.B).1.world.things,
         t.key ≠ mushroomMob.key)) ∧
     (∀ dir : Dir,
        (handle_player_collide_mob mobOnHit0 s7 mushroomMob dir).1.player.health = 0 →
        (handle_player_collide_mob mobOnHit0 s7 mushroomMob dir).1.deaths = s7.deaths + 1)) :=
  ⟨⟨rfl, rfl, by decide, by decide⟩,
   c7_mushroom_collision_effects mobOnHit0 s7 mushroomMob rfl rfl (by decide) (by decide)⟩

def bounceB : Thing := ⟨60, ThingKind.block, "bounce_block", (120, 0), false, 0⟩

def s8 : AppState := { s0 with player := { p0 with jumping := true } }

/-- C8 (counterexample): an airborne player (jumping flag set) collides
with a bounce block on its left face; the vertical velocity stays 0
instead of being set to the jump value, because _jump only fires when the
player is not already jumping. -/
theorem c8_counterexample :
    s8.player.jumping = true ∧
    (handle_player_collide_block cfg0 loadW0 s8 bounceB Dir.L).1.player.velocity.2 = 0 ∧
    ((0 : Int) ≠ -(BLOCK_SIZE * JUMP_SIZE)) := by
  decide

/-- C8 (amended): a player–block begin collision with a bounce block sets
the vertical velocity to the jump value -BLOCK_SIZE * JUMP_SIZE exactly
when the jump lock is clear at that point — always on a top-face contact
(landing clears the lock first), and on any other contact only when the
player was not airborne; an airborne side contact leaves the velocity
unchanged. -/
theorem c8_bounce_jump_guarded (cfg : String → List (String × String)) (loadW : String → World)
    (s : AppState) (block : Thing) (dir : Dir) (htid : block.tid = "bounce_block") :
    ((dir = Dir.B ∨ s.player.jumping = false) →
       (handle_player_collide_block cfg loadW s block dir).1.player.velocity.2
           = -(BLOCK_SIZE * JUMP_SIZE) ∧
       (handle_player_collide_block cfg loadW s block dir).1.player.velocity.1
           = s.player.velocity.1 ∧
       (handle_player_collide_block cfg loadW s block dir).2 = true) ∧
    ((dir ≠ Dir.B ∧ s.player.jumping = true) →
       (handle_player_collide_block cfg loadW s block dir).1.player.velocity
           = s.player.velocity ∧
       (handle_player_collide_block cfg loadW s block dir).2 = true) := by
  cases dir <;>
    by_cases hj : s.player.jumping = true <;>
      simp [handle_player_collide_block, htid, jump, hj]

/-- C8 witness: the amended bounce theorem applied to a grounded player
landing on the bounce block. -/
theorem c8_witness :
    bounceB.tid = "bounce_block" ∧
    (((Dir.B = Dir.B ∨ s0.player.jumping = false) →
       (handle_player_collide_block cfg0 loadW0 s0 bounceB Dir.B).1.player.velocity.2
           = -(BLOCK_SIZE * JUMP_SIZE) ∧
       (handle_player_collide_block cfg0 loadW0 s0 bounceB Dir.B).1.player.velocity.1
           = s0.player.velocity.1 ∧
       (handle_player_collide_block cfg0 loadW0 s0 bounceB Dir.B).2 = true) ∧
     ((Dir.B ≠ Dir.B ∧ s0.player.jumping = true) →
       (handle_player_collide_block cfg0 loadW0 s0 bounceB Dir.B).1.player.velocity
           = s0.player.velocity ∧
       (handle_player_collide_block cfg0 loadW0 s0 bounceB Dir.B).2 = true)) :=
  ⟨rfl, c8_bounce_jump_guarded cfg0 loadW0 s0 bounceB Dir.B rfl⟩

/-- C9: the player–mob begin handler accepts the physical collision
(returns True) on every path — invincible removal, every mushroom
direction, and the generic on-hit delegation — for every possible generic
on-hit effect. -/
theorem c9_player_mob_always_accepted (mobOnHit : AppState → Thing → AppState)
    (s : AppState) (mob : Thing) (dir : Dir) :
    (handle_player_collide_mob mobOnHit s mob dir).2 = true := rfl

def sPress : AppState := (handle_player_collide_block cfg0 loadW0 s0 switchB Dir.B).1

def sReset : AppState := reset_world loadW0 sPress "level2.txt"

def sFire : AppState := fireFirstDue { sReset with now := 1000 }

/-- C1: the claim fails on the code.  Press the switch in the level-1
world (one brick in radius is removed and the revert timer is scheduled),
replace the active world before the timer fires (level change), then fire
the timer: unpress_switch performs no world-existence check, so the new
world — which held zero bricks — gains a restored brick and the unpressed
switch, a ghost mutation in a world the switch never belonged to. -/
theorem c1_stale_switch_timer_mutates_new_world :
    ((sReset.world.things.filter (fun t => t.tid == "brick")).length = 0) ∧
    sFire.world ≠ sReset.world ∧
    ((sFire.world.things.filter (fun t => t.tid == "brick")).length = 1) ∧
    (sFire.world.things.any (fun t => t.tid == "switch") = true) := by
  decide

def collect0 : Thing → Player → Player := fun _ p => p

def star1 : Thing := ⟨10, ThingKind.item, "star", (96, 0), false, 0⟩

def star2 : Thing := ⟨11, ThingKind.item, "star", (112, 0), false, 0⟩

def w5 : World :=
  { things := [⟨0, ThingKind.player, "player", (0, 100), false, 0⟩, star1, star2], nextKey := 12 }

def a0 : AppState := { s0 with world := w5 }

def a1 : AppState := (handle_player_collide_item collect0 a0 star1).1

def a2 : AppState := (handle_player_collide_item collect0 { a1 with now := 5000 } star2).1

def a3 : AppState := fireFirstDue { a2 with now := 10000 }

def a4 : AppState := fireFirstDue { a3 with now := 15000 }

/-- C5: the claim fails on the code.  A star picked up at t = 0 and a
second one at t = 5000 each register their own removal callback and
neither cancels the other: the first callback fires at t = 10000 and
clears the flag only 5000 ms into the second pickup's 10000 ms duration
(cleared early), and the second callback still fires at t = 15000
(cleared a second time). -/
theorem c5_invincibility_cleared_early_and_twice :
    a2.invincibility = true ∧
    a2.timers = [(10000, TimerAction.removeInvincibility),
                 (15000, TimerAction.removeInvincibility)] ∧
    a3.invincibility = false ∧ a3.now = 10000 ∧
    a3.now < 5000 + TIMING_invincibility ∧
    a3.timers = [(15000, TimerAction.removeInvincibility)] ∧
    a4.invincibility = false ∧ a4.timers = [] := by
  decide

end Mario
